import Mathlib

/-!
Verification of the CalendPro backend synchronization and token-lifecycle
engine against its natural-language specification.

The definitions below are a shallow embedding of the Python source:

* `app/services/google_calendar.py` — `GoogleCalendarService._refresh_token_if_needed`
* `app/services/calendar_sync.py`   — `CalendarSyncService._sync_event`,
  `_sync_calendar_source`, `_sync_calendar_events`, `_sync_account_calendars`,
  `sync_user_calendars`
* `app/services/event_manager.py`   — `EventManagerService.create_event`,
  `update_event`, `delete_event`
* `app/models/*.py`                 — the ORM rows (`OAuthAccount`,
  `CalendarSource`, `ExternalEvent`) and the check constraint
  `ck_external_event_end_after_start` = `(all_day OR end_at > start_at)`.

Instants are modelled as `Int` seconds; UUID primary keys as `Nat`.
A Google date-only value is modelled by its day number, so the UTC instant
produced by `datetime.fromisoformat(d).replace(tzinfo=timezone.utc)` is
`day * 86400` ("midnight-anchored").  Database state is a list of rows;
`scalar_one_or_none` is modelled by `List.filter` on the query predicate
(`none` for `[]`, the row for a singleton, `MultipleResultsFound` otherwise).
Network calls are not performed; each embedded operation takes the provider's
response as a parameter and additionally returns the number of provider /
token-endpoint calls the Python code would have issued.
-/

/-- Python exceptions raised by the embedded code paths. -/
inductive PyErr where
  /-- `raise ValueError(msg)` -/
  | valueError (msg : String)
  /-- SQLAlchemy `MultipleResultsFound` from `scalar_one_or_none`. -/
  | multipleResultsFound
  /-- SQLAlchemy `IntegrityError`: a commit violated a table constraint. -/
  | integrityError
  /-- `googleapiclient.errors.HttpError` from a provider data call. -/
  | providerError
  /-- `KeyError` from a missing dict key. -/
  | keyError
deriving Repr, DecidableEq

/-- `app/models/oauth_account.py` — the `oauth_accounts` row. -/
structure OAuthAccount where
  id : Nat
  user_id : Nat
  provider : String
  provider_account_id : String
  access_token : Option String
  refresh_token : Option String
  token_expires_at : Option Int
  scopes : Option String
deriving Repr, DecidableEq

/-- `app/models/calendar_source.py` — the `calendar_sources` row. -/
structure CalendarSource where
  id : Nat
  oauth_account_id : Nat
  external_calendar_id : String
  name : String
  is_primary : Bool
  timezone : String
deriving Repr, DecidableEq

/-- `app/models/external_event.py` — the `external_events` row (CachedEvent). -/
structure ExternalEvent where
  id : Nat
  calendar_source_id : Nat
  external_event_id : Option String
  title : String
  description : Option String
  location : Option String
  start_at : Int
  end_at : Int
  all_day : Bool
  source : String
  status : String
deriving Repr, DecidableEq

/-- JSON body of a token-endpoint response (`response.json()` in
`_refresh_token_if_needed`); `text` is `response.text`, used in the
refresh-failure message.  `access_token` is meaningful when
`status_code = 200` (the token endpoint of §6 always returns it). -/
structure TokenResponse where
  status_code : Nat
  text : String
  access_token : String
  expires_in : Option Int
  refresh_token : Option String
deriving Repr, DecidableEq

/-- Message of the `ValueError` raised when no refresh token is stored
(`google_calendar.py` line 66). -/
def reauthRequiredMsg : String := "No refresh token available. User must re-authenticate."

/-- Message of the `ValueError` raised when the token endpoint answers
non-200 (`google_calendar.py` line 87). -/
def tokenRefreshFailedMsg (body : String) : String := "Failed to refresh token: " ++ body

/-- `GoogleCalendarService._refresh_token_if_needed` (`google_calendar.py`
lines 56-111).  `now` is `datetime.now` at the expiry check (line 59), `now2`
is `datetime.now` when the new expiry is computed (line 94).  `resp` is what
`requests.post` to the token endpoint would return.  Returns the resulting
account (or the raised error) together with the number of token-endpoint
calls issued. -/
def refreshTokenIfNeeded (acct : OAuthAccount) (now now2 : Int) (resp : TokenResponse) :
    Except PyErr OAuthAccount × Nat :=
  match acct.token_expires_at with
  | none => (.ok acct, 0)
  | some expiry =>
    -- "Refresh 5 minutes before expiry to be safe"
    if expiry - 5 * 60 ≤ now then
      -- Python truthiness: `if not self.oauth_account.refresh_token`
      if acct.refresh_token.getD "" = "" then
        (.error (.valueError reauthRequiredMsg), 0)
      else if resp.status_code ≠ 200 then
        (.error (.valueError (tokenRefreshFailedMsg resp.text)), 1)
      else
        (.ok { acct with
                access_token := some resp.access_token,
                token_expires_at := some (now2 + resp.expires_in.getD 3600),
                refresh_token :=
                  match resp.refresh_token with
                  | some rt => some rt
                  | none => acct.refresh_token }, 1)
    else (.ok acct, 0)

/-- The access token a provider data call proceeds with: every data call
(`list_calendars`, `get_events`, ...) first runs `_refresh_token_if_needed`
and then builds credentials from `self.oauth_account.access_token`
(`google_calendar.py` lines 39-47, 120-122). -/
def providerCallToken (acct : OAuthAccount) (now now2 : Int) (resp : TokenResponse) :
    Except PyErr (Option String) × Nat :=
  match refreshTokenIfNeeded acct now now2 resp with
  | (.ok acct', n) => (.ok acct'.access_token, n)
  | (.error e, n) => (.error e, n)

/-- The `"start"` / `"end"` dict of a Google Calendar API event: at most the
keys `"date"` (a date-only value, modelled by its day number) and
`"dateTime"` (a full date-time, modelled by the UTC instant
`datetime.fromisoformat` yields).  `google_event.get("start", {})` on a
missing key gives the empty dict `{ date := none, dateTime := none }`. -/
structure GEventTime where
  date : Option Int
  dateTime : Option Int
deriving Repr, DecidableEq

/-- A Google Calendar API event object, restricted to the keys
`_sync_event` reads. -/
structure GEvent where
  id : Option String
  summary : Option String
  description : Option String
  location : Option String
  start : GEventTime
  gend : GEventTime
  status : Option String
deriving Repr, DecidableEq

/-- A Google Calendar API calendar-list entry, restricted to the keys
`_sync_calendar_source` reads. -/
structure GCal where
  id : String
  summary : Option String
  primary : Option Bool
  timeZone : Option String
deriving Repr, DecidableEq

/-- The time-parsing prefix of `_sync_event` (`calendar_sync.py` lines
215-229): `all_day = "date" in start_data`; date-only values become
midnight-anchored UTC instants (`fromisoformat(date).replace(tzinfo=utc)`,
i.e. `day * 86400`); otherwise both bounds are parsed from `"dateTime"`
(`start_data.get("dateTime", "")` makes a missing key a `ValueError` from
`fromisoformat("")`, and a missing `"date"` on the end of an all-day event
is a `KeyError`). -/
def parseGTimes (start gend : GEventTime) : Except PyErr (Bool × Int × Int) :=
  match start.date with
  | some d =>
    match gend.date with
    | some e => .ok (true, d * 86400, e * 86400)
    | none => .error .keyError
  | none =>
    match start.dateTime, gend.dateTime with
    | some s, some e => .ok (false, s, e)
    | _, _ => .error (.valueError "Invalid isoformat string")

/-- The `scalar_one_or_none` query predicate of `_sync_event` (lines
232-235): match by `(calendar_source_id, external_event_id)`. -/
def eventKeyMatches (csId : Nat) (eid : Option String) (e : ExternalEvent) : Bool :=
  e.calendar_source_id == csId && e.external_event_id == eid

/-- A fresh primary key for an inserted row (the source uses random UUIDs;
any id not already present is faithful). -/
def freshEventId (db : List ExternalEvent) : Nat :=
  db.foldr (fun e m => max (e.id + 1) m) 0

/-- The field overwrite `_sync_event` applies to an existing matched row
(lines 238-246): full overwrite of title, description, location, start, end,
all_day and status; `source` is left as it was. -/
def updateEventFields (g : GEvent) (allDay : Bool) (startAt endAt : Int)
    (e : ExternalEvent) : ExternalEvent :=
  { e with
      title := g.summary.getD "Untitled Event",
      description := g.description,
      location := g.location,
      start_at := startAt,
      end_at := endAt,
      all_day := allDay,
      status := g.status.getD "confirmed" }

/-- The row `_sync_event` inserts on a cache miss (`calendar_sync.py` lines
248-261): a fresh `source = "imported"` row carrying the event's canonical
fields. -/
def importedRow (csId : Nat) (g : GEvent) (allDay : Bool) (startAt endAt : Int)
    (db : List ExternalEvent) : ExternalEvent :=
  { id := freshEventId db,
    calendar_source_id := csId,
    external_event_id := g.id,
    title := g.summary.getD "Untitled Event",
    description := g.description,
    location := g.location,
    start_at := startAt,
    end_at := endAt,
    all_day := allDay,
    source := "imported",
    status := g.status.getD "confirmed" }

/-- The in-place overwrite pass of `_sync_event` on a cache hit, as a map
over the table: the single row matching the key is rewritten with
`updateEventFields`, every other row kept as-is. -/
def upsertMap (csId : Nat) (g : GEvent) (allDay : Bool) (startAt endAt : Int)
    (db : List ExternalEvent) : List ExternalEvent :=
  db.map (fun e =>
    if eventKeyMatches csId g.id e then updateEventFields g allDay startAt endAt e else e)

/-- `CalendarSyncService._sync_event` (`calendar_sync.py` lines 202-263):
parse, look the event up by `(calendar_source_id, external_event_id)`,
overwrite on match, insert on miss. -/
def syncEvent (csId : Nat) (g : GEvent) (db : List ExternalEvent) :
    Except PyErr (List ExternalEvent) :=
  match parseGTimes g.start g.gend with
  | .error e => .error e
  | .ok (allDay, startAt, endAt) =>
    match db.filter (eventKeyMatches csId g.id) with
    | [] => .ok (db ++ [importedRow csId g allDay startAt endAt db])
    | [_] => .ok (upsertMap csId g allDay startAt endAt db)
    | _ => .error .multipleResultsFound

/-- The per-event loop of `CalendarSyncService._sync_calendar_events`
(`calendar_sync.py` lines 185-196): each event's failure is caught and only
that event is skipped; successes are counted.  The surrounding fetch is
modelled at the caller (`syncAccountCalendars`). -/
def syncCalendarEvents (csId : Nat) : List GEvent → List ExternalEvent → Nat × List ExternalEvent
  | [], db => (0, db)
  | g :: rest, db =>
    match syncEvent csId g db with
    | .ok db' =>
      let r := syncCalendarEvents csId rest db'
      (r.1 + 1, r.2)
    | .error _ => syncCalendarEvents csId rest db

/-- The `scalar_one_or_none` query predicate of `_sync_calendar_source`
(lines 126-130): match by `(oauth_account_id, external_calendar_id)`. -/
def sourceKeyMatches (acctId : Nat) (extId : String) (c : CalendarSource) : Bool :=
  c.oauth_account_id == acctId && c.external_calendar_id == extId

/-- A fresh primary key for an inserted `CalendarSource` row. -/
def freshSourceId (sources : List CalendarSource) : Nat :=
  sources.foldr (fun c m => max (c.id + 1) m) 0

/-- `CalendarSyncService._sync_calendar_source` (`calendar_sync.py` lines
108-150): update name / primary flag / timezone on match, insert on miss;
never deletes.  Returns the matched-or-created row and the new table. -/
def syncCalendarSource (acctId : Nat) (g : GCal) (sources : List CalendarSource) :
    Except PyErr (CalendarSource × List CalendarSource) :=
  match sources.filter (sourceKeyMatches acctId g.id) with
  | [] =>
    let c : CalendarSource :=
      { id := freshSourceId sources,
        oauth_account_id := acctId,
        external_calendar_id := g.id,
        name := g.summary.getD "Unnamed Calendar",
        is_primary := g.primary.getD false,
        timezone := g.timeZone.getD "UTC" }
    .ok (c, sources ++ [c])
  | [c] =>
    let c' : CalendarSource :=
      { c with
          name := g.summary.getD "Unnamed Calendar",
          is_primary := g.primary.getD false,
          timezone := g.timeZone.getD "UTC" }
    .ok (c', sources.map (fun x => if sourceKeyMatches acctId g.id x then
      { x with
          name := g.summary.getD "Unnamed Calendar",
          is_primary := g.primary.getD false,
          timezone := g.timeZone.getD "UTC" } else x))
  | _ => .error .multipleResultsFound

/-- `CalendarSyncService._sync_account_calendars` (`calendar_sync.py` lines
66-106).  Each remote calendar comes with the outcome its event fetch
(`google_service.get_events`) would have: `.error` models the fetch raising,
which `_sync_calendar_events` re-raises (lines 198-200) and the per-calendar
`except` catches (lines 101-103).  `calendars_synced` is incremented (line
92) before events are fetched, so a calendar whose fetch fails still counts.
Returns `((calendars_synced, events_synced), sources, events)`. -/
def syncAccountCalendars (acctId : Nat) :
    List (GCal × Except Unit (List GEvent)) →
    List CalendarSource → List ExternalEvent →
    (Nat × Nat) × List CalendarSource × List ExternalEvent
  | [], sources, db => ((0, 0), sources, db)
  | (g, fetch) :: rest, sources, db =>
    match syncCalendarSource acctId g sources with
    | .error _ => syncAccountCalendars acctId rest sources db
    | .ok cs =>
      match fetch with
      | .error _ =>
        let r := syncAccountCalendars acctId rest cs.2 db
        ((r.1.1 + 1, r.1.2), r.2)
      | .ok gevents =>
        let p := syncCalendarEvents cs.1.id gevents db
        let r := syncAccountCalendars acctId rest cs.2 p.2
        ((r.1.1 + 1, r.1.2 + p.1), r.2)

/-- `CalendarSyncService.sync_user_calendars` (`calendar_sync.py` lines
35-64): each account is a pair of its id and the outcome of
`list_calendars` (`.error` models the fetch raising, re-raised by
`_sync_account_calendars` line 83 and caught per account, lines 60-62).
Accumulates `(total_calendars, total_events)` across accounts. -/
def syncUserCalendars :
    List (Nat × Except Unit (List (GCal × Except Unit (List GEvent)))) →
    List CalendarSource → List ExternalEvent →
    (Nat × Nat) × List CalendarSource × List ExternalEvent
  | [], sources, db => ((0, 0), sources, db)
  | (acctId, fetchCals) :: rest, sources, db =>
    match fetchCals with
    | .error _ => syncUserCalendars rest sources db
    | .ok cals =>
      let r := syncAccountCalendars acctId cals sources db
      let r2 := syncUserCalendars rest r.2.1 r.2.2
      ((r2.1.1 + r.1.1, r2.1.2 + r.1.2), r2.2)

/-- The check constraint `ck_external_event_end_after_start` of
`app/models/external_event.py`: `(all_day OR end_at > start_at)` must hold
for every stored row. -/
def rowInvariant (e : ExternalEvent) : Bool :=
  e.all_day || decide (e.start_at < e.end_at)

/-- The table-wide check-constraint condition. -/
def eventsInvariantOk (db : List ExternalEvent) : Bool :=
  db.all rowInvariant

/-- A SQLAlchemy session over the `external_events` table: `committed` is
what the database holds, `current` additionally carries the session's
pending mutations. -/
structure Session where
  committed : List ExternalEvent
  current : List ExternalEvent
deriving Repr, DecidableEq

/-- `db.commit()`: the database accepts the pending rows only when every
row satisfies the check constraint; a violation is an `IntegrityError` and
the transaction is not applied. -/
def commitDb (s : Session) : Except PyErr Session :=
  if eventsInvariantOk s.current then .ok { committed := s.current, current := s.current }
  else .error .integrityError

/-- `db.rollback()`: discard pending mutations. -/
def rollbackDb (s : Session) : Session :=
  { committed := s.committed, current := s.committed }

/-- `EventManagerService.create_event` (`event_manager.py` lines 35-109).
`provider` is the outcome `google_service.create_event` would have: the
created event's Google id, or a raised error.  Returns the result, the
session, and the number of provider calls made. -/
def createEvent (sources : List CalendarSource) (s : Session) (csId : Nat)
    (title : String) (startAt endAt : Int) (description location : Option String)
    (allDay : Bool) (provider : Except Unit String) :
    Except PyErr ExternalEvent × Session × Nat :=
  if endAt ≤ startAt then
    (.error (.valueError "Event end time must be after start time"), s, 0)
  else
    match sources.filter (fun c => c.id == csId) with
    | [] => (.error (.valueError "Calendar source not found"), s, 0)
    | _ :: _ :: _ => (.error .multipleResultsFound, s, 0)
    | [cs] =>
      match provider with
      | .error _ => (.error .providerError, rollbackDb s, 1)
      | .ok gid =>
        let ev : ExternalEvent :=
          { id := freshEventId s.current,
            calendar_source_id := cs.id,
            external_event_id := some gid,
            title := title,
            description := description,
            location := location,
            start_at := startAt,
            end_at := endAt,
            all_day := allDay,
            source := "generated",
            status := "confirmed" }
        let s1 : Session := { s with current := s.current ++ [ev] }
        match commitDb s1 with
        | .ok s2 => (.ok ev, s2, 1)
        | .error e => (.error e, rollbackDb s1, 1)

/-- The per-field overwrite of `update_event` (`event_manager.py` lines
169-180): each field is written only when the argument is not `None`. -/
def applyEventUpdate (title : Option String) (startAt endAt : Option Int)
    (description location : Option String) (allDay : Option Bool)
    (e : ExternalEvent) : ExternalEvent :=
  { e with
      title := title.getD e.title,
      description := description.or e.description,
      location := location.or e.location,
      start_at := startAt.getD e.start_at,
      end_at := endAt.getD e.end_at,
      all_day := allDay.getD e.all_day }

/-- `EventManagerService.update_event` (`event_manager.py` lines 111-191).
Times are validated only when both `start_at` and `end_at` are supplied
(line 147: `if start_at and end_at and end_at <= start_at`).  `provider`
is the outcome `google_service.update_event` would have. -/
def updateEvent (s : Session) (eventId : Nat)
    (title : Option String) (startAt endAt : Option Int)
    (description location : Option String) (allDay : Option Bool)
    (provider : Except Unit Unit) :
    Except PyErr ExternalEvent × Session × Nat :=
  match s.current.filter (fun e => e.id == eventId) with
  | [] => (.error (.valueError "Event not found"), s, 0)
  | _ :: _ :: _ => (.error .multipleResultsFound, s, 0)
  | [ev] =>
    if ev.external_event_id.getD "" = "" then
      (.error (.valueError "Event does not have a Google Calendar ID"), s, 0)
    else if (match startAt, endAt with
             | some sa, some ea => decide (ea ≤ sa)
             | _, _ => false) then
      (.error (.valueError "Event end time must be after start time"), s, 0)
    else
      match provider with
      | .error _ => (.error .providerError, rollbackDb s, 1)
      | .ok _ =>
        let s1 : Session :=
          { s with current := s.current.map (fun e =>
              if e.id == eventId then
                applyEventUpdate title startAt endAt description location allDay e
              else e) }
        match commitDb s1 with
        | .ok s2 => (.ok (applyEventUpdate title startAt endAt description location allDay ev), s2, 1)
        | .error e => (.error e, rollbackDb s1, 1)

/-- `EventManagerService.delete_event` (`event_manager.py` lines 193-235).
A row with no Google id is deleted locally with no provider call (lines
207-212); otherwise the remote delete runs first and the local delete and
commit follow only on success. -/
def deleteEvent (s : Session) (eventId : Nat) (provider : Except Unit Unit) :
    Except PyErr Unit × Session × Nat :=
  match s.current.filter (fun e => e.id == eventId) with
  | [] => (.error (.valueError "Event not found"), s, 0)
  | _ :: _ :: _ => (.error .multipleResultsFound, s, 0)
  | [ev] =>
    if ev.external_event_id.getD "" = "" then
      let s1 : Session := { s with current := s.current.filter (fun e => !(e.id == eventId)) }
      match commitDb s1 with
      | .ok s2 => (.ok (), s2, 0)
      | .error e => (.error e, s1, 0)
    else
      match provider with
      | .error _ => (.error .providerError, rollbackDb s, 1)
      | .ok _ =>
        let s1 : Session := { s with current := s.current.filter (fun e => !(e.id == eventId)) }
        match commitDb s1 with
        | .ok s2 => (.ok (), s2, 1)
        | .error e => (.error e, rollbackDb s1, 1)

/-- Unfolding equation for `refreshTokenIfNeeded` when an expiry is stored. -/
theorem refreshTokenIfNeeded_some (acct : OAuthAccount) (T now now2 : Int)
    (resp : TokenResponse) (hT : acct.token_expires_at = some T) :
    refreshTokenIfNeeded acct now now2 resp =
      if T - 5 * 60 ≤ now then
        if acct.refresh_token.getD "" = "" then
          (.error (.valueError reauthRequiredMsg), 0)
        else if resp.status_code ≠ 200 then
          (.error (.valueError (tokenRefreshFailedMsg resp.text)), 1)
        else
          (.ok { acct with
                  access_token := some resp.access_token,
                  token_expires_at := some (now2 + resp.expires_in.getD 3600),
                  refresh_token :=
                    match resp.refresh_token with
                    | some rt => some rt
                    | none => acct.refresh_token }, 1)
      else (.ok acct, 0) := by
  unfold refreshTokenIfNeeded
  rw [hT]

/-- The two token-lifecycle failures are distinguishable: the message of the
`ReauthRequired` `ValueError` differs from every `TokenRefreshFailed`
message. -/
theorem reauthMsg_ne_tokenRefreshFailedMsg (body : String) :
    reauthRequiredMsg ≠ tokenRefreshFailedMsg body := by
  intro h
  have h2 := congrArg String.data h
  rw [reauthRequiredMsg, tokenRefreshFailedMsg, String.data_append] at h2
  have h3 := congrArg List.head? h2
  simp at h3

/-- C2 counterexample: for an account whose token expires at `T = 3600`, a
call at `now = T - 600` (ten minutes before expiry) does **not** trigger a
refresh: `_refresh_token_if_needed` returns with the account unchanged and
zero token-endpoint calls, refuting "a provider call made at
`now = T - 10min` triggers a refresh". -/
theorem tokenRefresh_at_T_minus_10min_no_refresh :
    refreshTokenIfNeeded ⟨1, 1, "google", "acc", some "tok", some "rt", some 3600, none⟩
      3000 3000 ⟨200, "", "tok2", some 3600, none⟩ =
    (.ok ⟨1, 1, "google", "acc", some "tok", some "rt", some 3600, none⟩, 0) := by
  rfl

/-- C2 (amended): for a stored expiry `T`, a refresh is attempted iff
`now ≥ T - 5min`: below the boundary the account is returned unchanged with
no token-endpoint call; at or above it the code either raises
`ReauthRequired` (no refresh token stored) or issues exactly one
token-endpoint call.  In particular a call at `T - 10min` does not refresh,
a call at `T - 6min` does not, and a call at `T - 1min` does. -/
theorem tokenRefresh_skew_boundary (acct : OAuthAccount) (T now2 : Int)
    (resp : TokenResponse) (hT : acct.token_expires_at = some T) :
    (∀ now, now < T - 300 →
      refreshTokenIfNeeded acct now now2 resp = (.ok acct, 0)) ∧
    (∀ now, T - 300 ≤ now →
      (refreshTokenIfNeeded acct now now2 resp).2 = 1 ∨
      refreshTokenIfNeeded acct now now2 resp = (.error (.valueError reauthRequiredMsg), 0)) ∧
    refreshTokenIfNeeded acct (T - 600) now2 resp = (.ok acct, 0) ∧
    refreshTokenIfNeeded acct (T - 360) now2 resp = (.ok acct, 0) ∧
    ((refreshTokenIfNeeded acct (T - 60) now2 resp).2 = 1 ∨
      refreshTokenIfNeeded acct (T - 60) now2 resp = (.error (.valueError reauthRequiredMsg), 0)) := by
  have below : ∀ now : Int, now < T - 300 →
      refreshTokenIfNeeded acct now now2 resp = (.ok acct, 0) := by
    intro now h
    rw [refreshTokenIfNeeded_some acct T now now2 resp hT, if_neg (by omega)]
  have above : ∀ now : Int, T - 300 ≤ now →
      (refreshTokenIfNeeded acct now now2 resp).2 = 1 ∨
      refreshTokenIfNeeded acct now now2 resp = (.error (.valueError reauthRequiredMsg), 0) := by
    intro now h
    rw [refreshTokenIfNeeded_some acct T now now2 resp hT, if_pos (by omega)]
    by_cases hrt : acct.refresh_token.getD "" = ""
    · right; rw [if_pos hrt]
    · rw [if_neg hrt]
      by_cases hs : resp.status_code ≠ 200
      · left; rw [if_pos hs]
      · left; rw [if_neg hs]
  exact ⟨below, above, below _ (by omega), below _ (by omega), above _ (by omega)⟩

/-- C2 witness: the amended boundary theorem applied to a concrete account
with expiry `T = 3600`: the `T - 600` instant performs no refresh. -/
theorem tokenRefresh_skew_boundary_witness :
    refreshTokenIfNeeded ⟨1, 1, "google", "acc", some "tok", some "rt", some 3600, none⟩
      (3600 - 600) 0 ⟨200, "", "tok2", some 3600, none⟩ =
    (.ok ⟨1, 1, "google", "acc", some "tok", some "rt", some 3600, none⟩, 0) :=
  (tokenRefresh_skew_boundary
    ⟨1, 1, "google", "acc", some "tok", some "rt", some 3600, none⟩ 3600 0
    ⟨200, "", "tok2", some 3600, none⟩ rfl).2.2.1

/-- C3: an account whose token needs a refresh (`now ≥ expiry - 5min`) but
whose refresh token is null or empty fails with the `ReauthRequired`
`ValueError`, with **zero** token-endpoint calls, and that error is distinct
from every `TokenRefreshFailed` error a rejected refresh raises. -/
theorem ensureValid_reauth_required (acct : OAuthAccount) (T now now2 : Int)
    (resp : TokenResponse) (hT : acct.token_expires_at = some T)
    (hexp : T - 300 ≤ now) (hrt : acct.refresh_token.getD "" = "") :
    refreshTokenIfNeeded acct now now2 resp = (.error (.valueError reauthRequiredMsg), 0) ∧
    (∀ body, reauthRequiredMsg ≠ tokenRefreshFailedMsg body) := by
  constructor
  · rw [refreshTokenIfNeeded_some acct T now now2 resp hT, if_pos (by omega), if_pos hrt]
  · exact reauthMsg_ne_tokenRefreshFailedMsg

/-- C3 witness: a concrete expired account with no refresh token. -/
theorem ensureValid_reauth_required_witness :
    refreshTokenIfNeeded ⟨1, 1, "google", "acc", some "tok", none, some 3600, none⟩
      3600 3600 ⟨200, "", "tok2", some 3600, none⟩ =
    (.error (.valueError reauthRequiredMsg), 0) ∧
    (∀ body, reauthRequiredMsg ≠ tokenRefreshFailedMsg body) :=
  ensureValid_reauth_required
    ⟨1, 1, "google", "acc", some "tok", none, some 3600, none⟩ 3600 3600 3600
    ⟨200, "", "tok2", some 3600, none⟩ rfl (by omega) rfl

/-- C4: a successful refresh stores the provider-returned access token and
`now + TTL` as the new expiry (the provider-reported TTL when one is
reported), overwrites the refresh token only when the response contains
one, and changes no other `OAuthAccount` field. -/
theorem tokenRefresh_success_updates (acct : OAuthAccount) (T now now2 : Int)
    (resp : TokenResponse) (hT : acct.token_expires_at = some T)
    (hexp : T - 300 ≤ now) (hrt : ¬ acct.refresh_token.getD "" = "")
    (hs : resp.status_code = 200) :
    ∃ acct', refreshTokenIfNeeded acct now now2 resp = (.ok acct', 1) ∧
      acct'.access_token = some resp.access_token ∧
      acct'.token_expires_at = some (now2 + resp.expires_in.getD 3600) ∧
      (∀ ttl, resp.expires_in = some ttl → acct'.token_expires_at = some (now2 + ttl)) ∧
      (resp.refresh_token = none → acct'.refresh_token = acct.refresh_token) ∧
      (∀ rt, resp.refresh_token = some rt → acct'.refresh_token = some rt) ∧
      acct'.id = acct.id ∧ acct'.user_id = acct.user_id ∧
      acct'.provider = acct.provider ∧
      acct'.provider_account_id = acct.provider_account_id ∧
      acct'.scopes = acct.scopes := by
  refine ⟨{ acct with
            access_token := some resp.access_token,
            token_expires_at := some (now2 + resp.expires_in.getD 3600),
            refresh_token :=
              match resp.refresh_token with
              | some rt => some rt
              | none => acct.refresh_token },
          ?_, rfl, rfl, ?_, ?_, ?_, rfl, rfl, rfl, rfl, rfl⟩
  · rw [refreshTokenIfNeeded_some acct T now now2 resp hT, if_pos (by omega), if_neg hrt,
      if_neg (by simp [hs])]
  · intro ttl h
    simp [h]
  · intro h
    simp [h]
  · intro rt h
    simp [h]

/-- C4 witness: a concrete successful refresh whose response omits the
refresh token; the stored refresh token survives and the expiry becomes
`now + 1800`. -/
theorem tokenRefresh_success_updates_witness :
    ∃ acct', refreshTokenIfNeeded
        ⟨1, 1, "google", "acc", some "tok", some "rt", some 3600, none⟩
        3600 3700 ⟨200, "", "tok2", some 1800, none⟩ = (.ok acct', 1) ∧
      acct'.access_token = some "tok2" ∧
      acct'.token_expires_at = some ((3700 : Int) + (some (1800 : Int)).getD 3600) ∧
      (∀ ttl, (some (1800 : Int)) = some ttl → acct'.token_expires_at = some (3700 + ttl)) ∧
      ((none : Option String) = none → acct'.refresh_token = some "rt") ∧
      (∀ rt, (none : Option String) = some rt → acct'.refresh_token = some rt) ∧
      acct'.id = 1 ∧ acct'.user_id = 1 ∧
      acct'.provider = "google" ∧
      acct'.provider_account_id = "acc" ∧
      acct'.scopes = none :=
  tokenRefresh_success_updates
    ⟨1, 1, "google", "acc", some "tok", some "rt", some 3600, none⟩ 3600 3600 3700
    ⟨200, "", "tok2", some 1800, none⟩ rfl (by omega) (by decide) rfl

/-- C10: an account whose stored `token_expires_at` is null never enters the
refresh path: no refresh, no error, zero token-endpoint calls, and every
provider call proceeds with the stored access token as-is — even when the
access token is absent and the refresh token is null. -/
theorem nullExpiry_no_refresh_no_error (acct : OAuthAccount) (now now2 : Int)
    (resp : TokenResponse) (hT : acct.token_expires_at = none) :
    refreshTokenIfNeeded acct now now2 resp = (.ok acct, 0) ∧
    providerCallToken acct now now2 resp = (.ok acct.access_token, 0) := by
  have h : refreshTokenIfNeeded acct now now2 resp = (.ok acct, 0) := by
    unfold refreshTokenIfNeeded
    rw [hT]
  refine ⟨h, ?_⟩
  unfold providerCallToken
  rw [h]

/-- C10 witness: a concrete account with null expiry, null access token and
null refresh token still proceeds without any refresh or error. -/
theorem nullExpiry_no_refresh_no_error_witness :
    refreshTokenIfNeeded ⟨1, 1, "google", "acc", none, none, none, none⟩
      99999999 99999999 ⟨200, "", "tok2", some 3600, none⟩ =
      (.ok ⟨1, 1, "google", "acc", none, none, none, none⟩, 0) ∧
    providerCallToken ⟨1, 1, "google", "acc", none, none, none, none⟩
      99999999 99999999 ⟨200, "", "tok2", some 3600, none⟩ = (.ok none, 0) :=
  nullExpiry_no_refresh_no_error
    ⟨1, 1, "google", "acc", none, none, none, none⟩ 99999999 99999999
    ⟨200, "", "tok2", some 3600, none⟩ rfl

/-- C5: for every remote event the reconciler parses successfully (and whose
`start`/`end` objects are well-formed per the provider interface, i.e. never
carry both a `date` and a `dateTime`): `all_day` is true iff the start is
date-only; when date-only, start and end are the midnight-anchored UTC
instants of the two dates (both divisible by 86400 seconds); when a full
date-time is present, `all_day` is false and start/end are the parsed
date-time instants. -/
theorem allday_detection (g : GEvent) (a : Bool) (s t : Int)
    (hwf : ¬(g.start.date.isSome ∧ g.start.dateTime.isSome))
    (hp : parseGTimes g.start g.gend = .ok (a, s, t)) :
    (a = true ↔ (g.start.date.isSome ∧ g.start.dateTime = none)) ∧
    (a = true → s % 86400 = 0 ∧ t % 86400 = 0 ∧
      ∃ d e, g.start.date = some d ∧ g.gend.date = some e ∧
        s = d * 86400 ∧ t = e * 86400) ∧
    (a = false → ∃ ts te, g.start.dateTime = some ts ∧ g.gend.dateTime = some te ∧
      s = ts ∧ t = te) := by
  unfold parseGTimes at hp
  cases hsd : g.start.date with
  | some d =>
    cases hed : g.gend.date with
    | some e =>
      rw [hsd, hed] at hp
      simp only [Except.ok.injEq, Prod.mk.injEq] at hp
      obtain ⟨ha, hs, ht⟩ := hp
      subst ha hs ht
      refine ⟨?_, ?_, ?_⟩
      · constructor
        · intro _
          exact ⟨by simp, Option.not_isSome_iff_eq_none.mp (fun h2 => hwf ⟨by simp [hsd], h2⟩)⟩
        · intro _; rfl
      · intro _
        exact ⟨Int.mul_emod_left d 86400, Int.mul_emod_left e 86400,
          d, e, rfl, rfl, rfl, rfl⟩
      · intro h; cases h
    | none =>
      rw [hsd, hed] at hp
      cases hp
  | none =>
    cases hsd2 : g.start.dateTime with
    | some ts =>
      cases hed2 : g.gend.dateTime with
      | some te =>
        rw [hsd, hsd2, hed2] at hp
        simp only [Except.ok.injEq, Prod.mk.injEq] at hp
        obtain ⟨ha, hs, ht⟩ := hp
        subst ha hs ht
        refine ⟨?_, ?_, ?_⟩
        · simp [hsd]
        · intro h; cases h
        · intro _; exact ⟨ts, te, rfl, rfl, rfl, rfl⟩
      | none =>
        rw [hsd, hsd2, hed2] at hp
        cases hp
    | none =>
      rw [hsd, hsd2] at hp
      cases hp

/-- C5 witness: a date-only event (day 20242) yields `all_day = true` with
midnight-anchored bounds; applied from the general theorem. -/
theorem allday_detection_witness :
    ((true : Bool) = true ↔
      ((some (20242 : Int)).isSome ∧ (none : Option Int) = none)) ∧
    ((true : Bool) = true → (20242 * 86400 : Int) % 86400 = 0 ∧
      (20243 * 86400 : Int) % 86400 = 0 ∧
      ∃ d e, (some (20242 : Int)) = some d ∧ (some (20243 : Int)) = some e ∧
        (20242 * 86400 : Int) = d * 86400 ∧ (20243 * 86400 : Int) = e * 86400) ∧
    ((true : Bool) = false → ∃ ts te, (none : Option Int) = some ts ∧
      (none : Option Int) = some te ∧ (20242 * 86400 : Int) = ts ∧
      (20243 * 86400 : Int) = te) :=
  allday_detection
    ⟨some "e2", some "Holiday", none, none, ⟨some 20242, none⟩, ⟨some 20243, none⟩, none⟩
    true (20242 * 86400) (20243 * 86400) (by simp) rfl

/-- Overwriting an event's mutable fields does not change its
reconciliation key. -/
theorem eventKeyMatches_updateEventFields (csId : Nat) (eid : Option String)
    (g : GEvent) (allDay : Bool) (startAt endAt : Int) (e : ExternalEvent) :
    eventKeyMatches csId eid (updateEventFields g allDay startAt endAt e) =
      eventKeyMatches csId eid e := rfl

/-- Filtering commutes with a map that preserves the filter predicate. -/
theorem filter_map_of_pres {α : Type} (p : α → Bool) (f : α → α)
    (hf : ∀ x, p (f x) = p x) :
    ∀ l : List α, (l.map f).filter p = (l.filter p).map f := by
  intro l
  induction l with
  | nil => rfl
  | cons x l ih =>
    cases hpx : p x <;>
      simp [List.filter_cons, hf x, hpx, ih]

/-- The overwrite step of `upsertMap` preserves every reconciliation key. -/
theorem eventKeyMatches_upsert_step (csId : Nat) (eid : Option String)
    (g : GEvent) (allDay : Bool) (startAt endAt : Int) (x : ExternalEvent) :
    eventKeyMatches csId eid
      (if eventKeyMatches csId g.id x then updateEventFields g allDay startAt endAt x else x) =
      eventKeyMatches csId eid x := by
  by_cases hx : eventKeyMatches csId g.id x = true
  · rw [if_pos hx, eventKeyMatches_updateEventFields]
  · rw [if_neg hx]

/-- Filtering an upserted table is the upsert of the filtered rows. -/
theorem upsertMap_filter (csId : Nat) (eid : Option String) (g : GEvent)
    (allDay : Bool) (startAt endAt : Int) (db : List ExternalEvent) :
    (upsertMap csId g allDay startAt endAt db).filter (eventKeyMatches csId eid) =
      (db.filter (eventKeyMatches csId eid)).map (fun e =>
        if eventKeyMatches csId g.id e then updateEventFields g allDay startAt endAt e else e) :=
  filter_map_of_pres _ _
    (fun x => eventKeyMatches_upsert_step csId eid g allDay startAt endAt x) db

/-- When no row matches the key, `upsertMap` is the identity. -/
theorem upsertMap_id_of_no_match (csId : Nat) (g : GEvent)
    (allDay : Bool) (startAt endAt : Int) (db : List ExternalEvent)
    (h : db.filter (eventKeyMatches csId g.id) = []) :
    upsertMap csId g allDay startAt endAt db = db := by
  have hall := List.filter_eq_nil_iff.mp h
  unfold upsertMap
  refine (List.map_congr_left fun x hx => ?_).trans (List.map_id db)
  exact if_neg (hall x hx)

/-- Overwriting the mutable fields twice equals overwriting once. -/
theorem updateEventFields_idem (g : GEvent) (allDay : Bool) (startAt endAt : Int)
    (e : ExternalEvent) :
    updateEventFields g allDay startAt endAt (updateEventFields g allDay startAt endAt e) =
      updateEventFields g allDay startAt endAt e := rfl

/-- `upsertMap` is idempotent: overwriting twice with the same remote data
is the same as overwriting once. -/
theorem upsertMap_idem (csId : Nat) (g : GEvent)
    (allDay : Bool) (startAt endAt : Int) (db : List ExternalEvent) :
    upsertMap csId g allDay startAt endAt (upsertMap csId g allDay startAt endAt db) =
      upsertMap csId g allDay startAt endAt db := by
  unfold upsertMap
  rw [List.map_map]
  refine List.map_congr_left (fun x _ => ?_)
  by_cases hx : eventKeyMatches csId g.id x = true
  · simp [Function.comp_apply, hx, eventKeyMatches_updateEventFields, updateEventFields_idem]
  · simp [Function.comp_apply, hx]

/-- Reconciling a single event whose `syncEvent` step succeeds counts one
synced event. -/
theorem syncCalendarEvents_single (csId : Nat) (g : GEvent)
    (db db' : List ExternalEvent) (h : syncEvent csId g db = .ok db') :
    syncCalendarEvents csId [g] db = (1, db') := by
  simp [syncCalendarEvents, h]

/-- C1: event reconciliation is an idempotent upsert.  For a remote event
with id `eid` that parses successfully, against a cache satisfying the
at-most-one-row-per-key invariant: after `reconcile(C, [E])` exactly one
cached row carries the key `(C.id, E.id)`, its mutable fields equal the
event's canonical fields, and reconciling again with the same data returns
the cache unchanged (no duplicate rows, no field changes). -/
theorem reconcile_idempotent_upsert (csId : Nat) (g : GEvent) (eid : String)
    (db : List ExternalEvent) (a : Bool) (s t : Int)
    (hid : g.id = some eid)
    (hp : parseGTimes g.start g.gend = .ok (a, s, t))
    (huniq : (db.filter (eventKeyMatches csId (some eid))).length ≤ 1) :
    (syncCalendarEvents csId [g] db).1 = 1 ∧
    ((syncCalendarEvents csId [g] db).2.filter (eventKeyMatches csId (some eid))).length = 1 ∧
    (∀ e ∈ (syncCalendarEvents csId [g] db).2.filter (eventKeyMatches csId (some eid)),
       e.title = g.summary.getD "Untitled Event" ∧ e.description = g.description ∧
       e.location = g.location ∧ e.start_at = s ∧ e.end_at = t ∧ e.all_day = a ∧
       e.status = g.status.getD "confirmed") ∧
    syncCalendarEvents csId [g] (syncCalendarEvents csId [g] db).2 =
      (1, (syncCalendarEvents csId [g] db).2) := by
  rcases hfil : db.filter (eventKeyMatches csId (some eid)) with _ | ⟨e0, _ | ⟨e1, rest⟩⟩
  · -- cache miss: a fresh imported row is appended
    have hall := List.filter_eq_nil_iff.mp hfil
    have hsync : syncEvent csId g db = .ok (db ++ [importedRow csId g a s t db]) := by
      simp [syncEvent, hp, hid, hfil]
    have h1 := syncCalendarEvents_single csId g db _ hsync
    rw [h1]
    have hPnew : eventKeyMatches csId (some eid) (importedRow csId g a s t db) = true := by
      simp [eventKeyMatches, importedRow, hid]
    have hfilApp : (db ++ [importedRow csId g a s t db]).filter
        (eventKeyMatches csId (some eid)) = [importedRow csId g a s t db] := by
      rw [List.filter_append, hfil]
      simp [List.filter_cons, hPnew]
    refine ⟨rfl, ?_, ?_, ?_⟩
    · rw [hfilApp]
      rfl
    · intro e he
      rw [hfilApp] at he
      rcases List.mem_singleton.mp he with rfl
      exact ⟨rfl, rfl, rfl, rfl, rfl, rfl, rfl⟩
    · have hupsApp : upsertMap csId g a s t (db ++ [importedRow csId g a s t db]) =
          db ++ [importedRow csId g a s t db] := by
        unfold upsertMap
        rw [List.map_append]
        have hleft : db.map (fun e => if eventKeyMatches csId g.id e then
            updateEventFields g a s t e else e) = db := by
          refine (List.map_congr_left fun x hx => ?_).trans (List.map_id db)
          exact if_neg (by rw [hid]; exact hall x hx)
        have hright : [importedRow csId g a s t db].map (fun e =>
            if eventKeyMatches csId g.id e then updateEventFields g a s t e else e) =
            [importedRow csId g a s t db] := by
          simp only [List.map_cons, List.map_nil]
          rw [if_pos (by rw [hid]; exact hPnew)]
          rfl
        rw [hleft, hright]
      have hfil2 : (db ++ [importedRow csId g a s t db]).filter
          (eventKeyMatches csId g.id) = [importedRow csId g a s t db] := by
        rw [hid]; exact hfilApp
      have hsync2 : syncEvent csId g (db ++ [importedRow csId g a s t db]) =
          .ok (db ++ [importedRow csId g a s t db]) := by
        simp [syncEvent, hp, hfil2, hupsApp]
      exact syncCalendarEvents_single csId g _ _ hsync2
  · -- cache hit: the unique matching row is overwritten in place
    have h0mem : e0 ∈ db.filter (eventKeyMatches csId (some eid)) := by
      rw [hfil]; exact List.mem_singleton_self e0
    have hP0 : eventKeyMatches csId (some eid) e0 = true := (List.mem_filter.mp h0mem).2
    have hsync : syncEvent csId g db = .ok (upsertMap csId g a s t db) := by
      simp [syncEvent, hp, hid, hfil]
    have h1 := syncCalendarEvents_single csId g db _ hsync
    rw [h1]
    have hfilUp : (upsertMap csId g a s t db).filter (eventKeyMatches csId (some eid)) =
        [updateEventFields g a s t e0] := by
      rw [upsertMap_filter, hfil]
      simp only [List.map_cons, List.map_nil]
      rw [if_pos (by rw [hid]; exact hP0)]
    refine ⟨rfl, ?_, ?_, ?_⟩
    · rw [hfilUp]
      rfl
    · intro e he
      rw [hfilUp] at he
      rcases List.mem_singleton.mp he with rfl
      exact ⟨rfl, rfl, rfl, rfl, rfl, rfl, rfl⟩
    · have hfil2 : (upsertMap csId g a s t db).filter (eventKeyMatches csId g.id) =
          [updateEventFields g a s t e0] := by
        rw [hid]; exact hfilUp
      have hsync2 : syncEvent csId g (upsertMap csId g a s t db) =
          .ok (upsertMap csId g a s t db) := by
        simp [syncEvent, hp, hfil2, upsertMap_idem]
      exact syncCalendarEvents_single csId g _ _ hsync2
  · -- the key-uniqueness invariant excludes two matching rows
    rw [hfil] at huniq
    simp at huniq

/-- C1 witness: a concrete timed event `e1` reconciled into an empty cache:
one row with the canonical fields, and a second pass is a no-op. -/
theorem reconcile_idempotent_upsert_witness :
    (syncCalendarEvents 1
      [⟨some "e1", some "Meeting", none, none, ⟨none, some 100⟩, ⟨none, some 200⟩, none⟩]
      []).1 = 1 ∧
    ((syncCalendarEvents 1
      [⟨some "e1", some "Meeting", none, none, ⟨none, some 100⟩, ⟨none, some 200⟩, none⟩]
      []).2.filter (eventKeyMatches 1 (some "e1"))).length = 1 ∧
    (∀ e ∈ (syncCalendarEvents 1
      [⟨some "e1", some "Meeting", none, none, ⟨none, some 100⟩, ⟨none, some 200⟩, none⟩]
      []).2.filter (eventKeyMatches 1 (some "e1")),
       e.title = "Meeting" ∧ e.description = none ∧ e.location = none ∧
       e.start_at = 100 ∧ e.end_at = 200 ∧ e.all_day = false ∧
       e.status = "confirmed") ∧
    syncCalendarEvents 1
      [⟨some "e1", some "Meeting", none, none, ⟨none, some 100⟩, ⟨none, some 200⟩, none⟩]
      (syncCalendarEvents 1
        [⟨some "e1", some "Meeting", none, none, ⟨none, some 100⟩, ⟨none, some 200⟩, none⟩]
        []).2 =
      (1, (syncCalendarEvents 1
        [⟨some "e1", some "Meeting", none, none, ⟨none, some 100⟩, ⟨none, some 200⟩, none⟩]
        []).2) :=
  reconcile_idempotent_upsert 1
    ⟨some "e1", some "Meeting", none, none, ⟨none, some 100⟩, ⟨none, some 200⟩, none⟩
    "e1" [] false 100 200 rfl rfl (by decide)

/-- C6: per-calendar failures are isolated.  For any account with three
remote calendars (distinct external ids) where the event fetch of calendar
#2 throws, `sync_user_calendars` still completes and returns
`calendars_synced = 3` together with the sum of the event counts of
calendars #1 and #3 (reconciled in order against the cache); the failure
aborts neither root sibling calendars nor the account. -/
theorem sync_isolates_calendar_failure (acctId : Nat) (c1 c2 c3 : GCal)
    (E1 E3 : List GEvent) (db : List ExternalEvent)
    (h12 : c1.id ≠ c2.id) (h13 : c1.id ≠ c3.id) (h23 : c2.id ≠ c3.id) :
    (syncUserCalendars [(acctId, .ok [(c1, .ok E1), (c2, .error ()), (c3, .ok E3)])] [] db).1 =
      (3, (syncCalendarEvents 0 E1 db).1 +
          (syncCalendarEvents 2 E3 (syncCalendarEvents 0 E1 db).2).1) := by
  have b12 : (c1.id == c2.id) = false := beq_eq_false_iff_ne.mpr h12
  have b13 : (c1.id == c3.id) = false := beq_eq_false_iff_ne.mpr h13
  have b23 : (c2.id == c3.id) = false := beq_eq_false_iff_ne.mpr h23
  have hs1 : syncCalendarSource acctId c1 [] =
      .ok (⟨0, acctId, c1.id, c1.summary.getD "Unnamed Calendar",
            c1.primary.getD false, c1.timeZone.getD "UTC"⟩,
           [⟨0, acctId, c1.id, c1.summary.getD "Unnamed Calendar",
             c1.primary.getD false, c1.timeZone.getD "UTC"⟩]) := rfl
  have hf2 : List.filter (sourceKeyMatches acctId c2.id)
      [⟨0, acctId, c1.id, c1.summary.getD "Unnamed Calendar",
        c1.primary.getD false, c1.timeZone.getD "UTC"⟩] = [] := by
    simp [sourceKeyMatches, b12]
  have hs2 : syncCalendarSource acctId c2
      [⟨0, acctId, c1.id, c1.summary.getD "Unnamed Calendar",
        c1.primary.getD false, c1.timeZone.getD "UTC"⟩] =
      .ok (⟨1, acctId, c2.id, c2.summary.getD "Unnamed Calendar",
            c2.primary.getD false, c2.timeZone.getD "UTC"⟩,
           [⟨0, acctId, c1.id, c1.summary.getD "Unnamed Calendar",
             c1.primary.getD false, c1.timeZone.getD "UTC"⟩,
            ⟨1, acctId, c2.id, c2.summary.getD "Unnamed Calendar",
             c2.primary.getD false, c2.timeZone.getD "UTC"⟩]) := by
    simp only [syncCalendarSource, hf2]
    rfl
  have hf3 : List.filter (sourceKeyMatches acctId c3.id)
      [⟨0, acctId, c1.id, c1.summary.getD "Unnamed Calendar",
        c1.primary.getD false, c1.timeZone.getD "UTC"⟩,
       ⟨1, acctId, c2.id, c2.summary.getD "Unnamed Calendar",
        c2.primary.getD false, c2.timeZone.getD "UTC"⟩] = [] := by
    simp [sourceKeyMatches, b13, b23]
  have hs3 : syncCalendarSource acctId c3
      [⟨0, acctId, c1.id, c1.summary.getD "Unnamed Calendar",
        c1.primary.getD false, c1.timeZone.getD "UTC"⟩,
       ⟨1, acctId, c2.id, c2.summary.getD "Unnamed Calendar",
        c2.primary.getD false, c2.timeZone.getD "UTC"⟩] =
      .ok (⟨2, acctId, c3.id, c3.summary.getD "Unnamed Calendar",
            c3.primary.getD false, c3.timeZone.getD "UTC"⟩,
           [⟨0, acctId, c1.id, c1.summary.getD "Unnamed Calendar",
             c1.primary.getD false, c1.timeZone.getD "UTC"⟩,
            ⟨1, acctId, c2.id, c2.summary.getD "Unnamed Calendar",
             c2.primary.getD false, c2.timeZone.getD "UTC"⟩,
            ⟨2, acctId, c3.id, c3.summary.getD "Unnamed Calendar",
             c3.primary.getD false, c3.timeZone.getD "UTC"⟩]) := by
    simp only [syncCalendarSource, hf3]
    rfl
  simp only [syncUserCalendars, syncAccountCalendars, hs1, hs2, hs3]
  simp only [Prod.mk.injEq]
  refine ⟨trivial, ?_⟩
  omega

/-- C6 witness: three concrete calendars, the middle one's event fetch
throwing; the run reports 3 calendars and the summed event counts of
calendars #1 and #3. -/
theorem sync_isolates_calendar_failure_witness :
    (syncUserCalendars
      [(7, .ok [(⟨"a", none, none, none⟩,
                  .ok [⟨some "e1", some "M", none, none, ⟨none, some 100⟩,
                        ⟨none, some 200⟩, none⟩]),
                 (⟨"b", none, none, none⟩, .error ()),
                 (⟨"c", none, none, none⟩, .ok [])])] [] []).1 =
      (3, (syncCalendarEvents 0
            [⟨some "e1", some "M", none, none, ⟨none, some 100⟩, ⟨none, some 200⟩, none⟩]
            []).1 +
          (syncCalendarEvents 2 []
            (syncCalendarEvents 0
              [⟨some "e1", some "M", none, none, ⟨none, some 100⟩, ⟨none, some 200⟩, none⟩]
              []).2).1) :=
  sync_isolates_calendar_failure 7 ⟨"a", none, none, none⟩ ⟨"b", none, none, none⟩
    ⟨"c", none, none, none⟩
    [⟨some "e1", some "M", none, none, ⟨none, some 100⟩, ⟨none, some 200⟩, none⟩] [] []
    (by decide) (by decide) (by decide)

/-- A successful `_sync_event` step keeps every row whose key differs from
the processed event's key, verbatim. -/
theorem mem_of_syncEvent_ok (csId : Nat) (g : GEvent) (db db' : List ExternalEvent)
    (e : ExternalEvent) (he : e ∈ db) (hne : eventKeyMatches csId g.id e = false)
    (h : syncEvent csId g db = .ok db') : e ∈ db' := by
  cases hp : parseGTimes g.start g.gend with
  | error err => simp [syncEvent, hp] at h
  | ok res =>
    obtain ⟨a, s, t⟩ := res
    rcases hfil : db.filter (eventKeyMatches csId g.id) with _ | ⟨x, _ | ⟨y, rest⟩⟩
    · simp only [syncEvent, hp, hfil, Except.ok.injEq] at h
      rw [← h]
      exact List.mem_append_left _ he
    · simp only [syncEvent, hp, hfil, Except.ok.injEq] at h
      rw [← h]
      unfold upsertMap
      refine List.mem_map.mpr ⟨e, he, ?_⟩
      rw [if_neg (by simp [hne])]
    · simp [syncEvent, hp, hfil] at h

/-- C8: bulk sync never deletes local state.  (i) Every cached event whose
key matches no event in the remote result set survives reconciliation
verbatim — neither deleted nor modified.  (ii) `_sync_calendar_source`
never deletes a `CalendarSource` row: every pre-existing row is still
present (same primary key and same `(account, external id)` key; only
name / primary flag / timezone may change) — remote calendars are only
updated on match or inserted on miss. -/
theorem bulk_sync_never_deletes :
    (∀ (csId : Nat) (gs : List GEvent) (db : List ExternalEvent) (e : ExternalEvent),
       e ∈ db → (∀ g ∈ gs, eventKeyMatches csId g.id e = false) →
       e ∈ (syncCalendarEvents csId gs db).2) ∧
    (∀ (acctId : Nat) (gcal : GCal) (sources : List CalendarSource)
       (c0 : CalendarSource) (sources' : List CalendarSource),
       syncCalendarSource acctId gcal sources = .ok (c0, sources') →
       ∀ c ∈ sources, ∃ c' ∈ sources', c'.id = c.id ∧
         c'.oauth_account_id = c.oauth_account_id ∧
         c'.external_calendar_id = c.external_calendar_id) := by
  constructor
  · intro csId gs
    induction gs with
    | nil =>
      intro db e he _
      simpa [syncCalendarEvents] using he
    | cons g rest ih =>
      intro db e he hnm
      cases hse : syncEvent csId g db with
      | ok db' =>
        simp only [syncCalendarEvents, hse]
        exact ih db' e
          (mem_of_syncEvent_ok csId g db db' e he
            (hnm g (List.mem_cons_self g rest)) hse)
          (fun g' h' => hnm g' (List.mem_cons_of_mem g h'))
      | error err =>
        simp only [syncCalendarEvents, hse]
        exact ih db e he (fun g' h' => hnm g' (List.mem_cons_of_mem g h'))
  · intro acctId gcal sources c0 sources' h c hc
    rcases hfil : sources.filter (sourceKeyMatches acctId gcal.id) with _ | ⟨x, _ | ⟨y, rest⟩⟩
    · simp only [syncCalendarSource, hfil, Except.ok.injEq, Prod.mk.injEq] at h
      rw [← h.2]
      exact ⟨c, List.mem_append_left _ hc, rfl, rfl, rfl⟩
    · simp only [syncCalendarSource, hfil, Except.ok.injEq, Prod.mk.injEq] at h
      rw [← h.2]
      refine ⟨_, List.mem_map.mpr ⟨c, hc, rfl⟩, ?_, ?_, ?_⟩ <;>
        by_cases hcm : sourceKeyMatches acctId gcal.id c = true <;>
          simp [hcm]
    · simp [syncCalendarSource, hfil] at h

/-- C8 witness: a cached event of another calendar survives a sync pass,
and a pre-existing `CalendarSource` row survives a calendar upsert that
inserts a new calendar. -/
theorem bulk_sync_never_deletes_witness :
    ((⟨5, 9, some "zz", "Old", none, none, 0, 10, false, "imported", "confirmed"⟩ :
        ExternalEvent) ∈
      (syncCalendarEvents 1
        [⟨some "e1", some "M", none, none, ⟨none, some 100⟩, ⟨none, some 200⟩, none⟩]
        [⟨5, 9, some "zz", "Old", none, none, 0, 10, false, "imported", "confirmed"⟩]).2) ∧
    (∀ c ∈ [(⟨3, 2, "other", "Nm", false, "UTC"⟩ : CalendarSource)],
      ∃ c' ∈ [(⟨3, 2, "other", "Nm", false, "UTC"⟩ : CalendarSource),
              ⟨4, 1, "cal1", "Unnamed Calendar", false, "UTC"⟩],
        c'.id = c.id ∧ c'.oauth_account_id = c.oauth_account_id ∧
        c'.external_calendar_id = c.external_calendar_id) :=
  ⟨bulk_sync_never_deletes.1 1
    [⟨some "e1", some "M", none, none, ⟨none, some 100⟩, ⟨none, some 200⟩, none⟩]
    [⟨5, 9, some "zz", "Old", none, none, 0, 10, false, "imported", "confirmed"⟩]
    ⟨5, 9, some "zz", "Old", none, none, 0, 10, false, "imported", "confirmed"⟩
    (by decide) (by decide),
   bulk_sync_never_deletes.2 1 ⟨"cal1", none, none, none⟩
    [⟨3, 2, "other", "Nm", false, "UTC"⟩]
    ⟨4, 1, "cal1", "Unnamed Calendar", false, "UTC"⟩
    [⟨3, 2, "other", "Nm", false, "UTC"⟩, ⟨4, 1, "cal1", "Unnamed Calendar", false, "UTC"⟩]
    rfl⟩

/-- On a clean session (no pending mutations) a rollback is a no-op. -/
theorem rollbackDb_clean (s : Session) (h : s.current = s.committed) :
    rollbackDb s = s := by
  obtain ⟨com, cur⟩ := s
  simp only [rollbackDb]
  simp only at h
  rw [h]

/-- The check-constraint condition survives filtering. -/
theorem eventsInvariantOk_filter (db : List ExternalEvent) (q : ExternalEvent → Bool)
    (h : eventsInvariantOk db = true) : eventsInvariantOk (db.filter q) = true := by
  rw [eventsInvariantOk, List.all_eq_true] at *
  intro e he
  exact h e (List.mem_filter.mp he).1

/-- C7: single-event writes are atomic with respect to the local cache.
On a clean session: (i)–(iii) whenever the provider call of `create_event`,
`update_event` or `delete_event` fails, the operation raises and the session
is exactly as before the call (rollback, no partial state); (iv)
`delete_event` on a row whose external event id is null/empty performs only
the local delete and commit, with zero provider calls. -/
theorem single_write_atomic :
    (∀ (sources : List CalendarSource) (s : Session) (csId : Nat) (title : String)
       (st en : Int) (d l : Option String) (ad : Bool),
       s.current = s.committed →
       (createEvent sources s csId title st en d l ad (.error ())).2.1 = s ∧
       ∃ err, (createEvent sources s csId title st en d l ad (.error ())).1 = .error err) ∧
    (∀ (s : Session) (eid : Nat) (title : Option String) (sa ea : Option Int)
       (d l : Option String) (ad : Option Bool),
       s.current = s.committed →
       (updateEvent s eid title sa ea d l ad (.error ())).2.1 = s ∧
       ∃ err, (updateEvent s eid title sa ea d l ad (.error ())).1 = .error err) ∧
    (∀ (s : Session) (eid : Nat),
       s.current = s.committed →
       (deleteEvent s eid (.error ())).2.2 = 1 →
       (deleteEvent s eid (.error ())).2.1 = s ∧
       ∃ err, (deleteEvent s eid (.error ())).1 = .error err) ∧
    (∀ (s : Session) (eid : Nat) (ev : ExternalEvent) (provider : Except Unit Unit),
       s.current = s.committed → eventsInvariantOk s.current = true →
       s.current.filter (fun e => e.id == eid) = [ev] →
       ev.external_event_id.getD "" = "" →
       (deleteEvent s eid provider).2.2 = 0 ∧
       (deleteEvent s eid provider).1 = .ok () ∧
       (deleteEvent s eid provider).2.1 =
         ⟨s.current.filter (fun e => !(e.id == eid)),
          s.current.filter (fun e => !(e.id == eid))⟩) := by
  refine ⟨?_, ?_, ?_, ?_⟩
  · intro sources s csId title st en d l ad h
    unfold createEvent
    by_cases hv : en ≤ st
    · rw [if_pos hv]
      exact ⟨by trivial, _, rfl⟩
    · rw [if_neg hv]
      rcases hfs : sources.filter (fun c => c.id == csId) with _ | ⟨cs, _ | ⟨y, r⟩⟩ <;>
        simp only [hfs]
      · exact ⟨by trivial, _, rfl⟩
      · exact ⟨rollbackDb_clean s h, _, rfl⟩
      · exact ⟨by trivial, _, rfl⟩
  · intro s eid title sa ea d l ad h
    unfold updateEvent
    rcases hfe : s.current.filter (fun e => e.id == eid) with _ | ⟨ev, _ | ⟨y, r⟩⟩ <;>
      simp only [hfe]
    · exact ⟨by trivial, _, rfl⟩
    · by_cases hext : ev.external_event_id.getD "" = ""
      · rw [if_pos hext]
        exact ⟨by trivial, _, rfl⟩
      · rw [if_neg hext]
        by_cases hvb : (match sa, ea with
                        | some sa', some ea' => decide (ea' ≤ sa')
                        | _, _ => false) = true
        · rw [if_pos hvb]
          exact ⟨by trivial, _, rfl⟩
        · rw [if_neg hvb]
          exact ⟨rollbackDb_clean s h, _, rfl⟩
    · exact ⟨by trivial, _, rfl⟩
  · intro s eid h
    unfold deleteEvent
    rcases hfe : s.current.filter (fun e => e.id == eid) with _ | ⟨ev, _ | ⟨y, r⟩⟩ <;>
      simp only [hfe]
    · intro hcalls
      cases hcalls
    · by_cases hext : ev.external_event_id.getD "" = ""
      · rw [if_pos hext]
        rcases hc : commitDb ⟨s.committed,
            s.current.filter (fun e => !(e.id == eid))⟩ with e' | s2 <;>
          simp only [hc] <;> intro hcalls <;> cases hcalls
      · rw [if_neg hext]
        intro _
        exact ⟨rollbackDb_clean s h, _, rfl⟩
    · intro hcalls
      cases hcalls
  · intro s eid ev provider h hinv hfe hext
    unfold deleteEvent
    rw [hfe]
    simp only
    rw [if_pos hext]
    have hcommit : commitDb ⟨s.committed, s.current.filter (fun e => !(e.id == eid))⟩ =
        .ok ⟨s.current.filter (fun e => !(e.id == eid)),
             s.current.filter (fun e => !(e.id == eid))⟩ := by
      unfold commitDb
      rw [if_pos (eventsInvariantOk_filter s.current _ hinv)]
    rw [hcommit]
    exact ⟨rfl, rfl, rfl⟩

/-- C7 witness: concrete sessions exercising all four parts — failed
provider calls leave the session untouched for create/update/delete, and a
local-only row is deleted with zero provider calls. -/
theorem single_write_atomic_witness :
    ((createEvent [⟨1, 1, "cal1", "Work", true, "UTC"⟩] ⟨[], []⟩ 1 "T" 0 3600
        none none false (.error ())).2.1 = ⟨[], []⟩ ∧
      ∃ err, (createEvent [⟨1, 1, "cal1", "Work", true, "UTC"⟩] ⟨[], []⟩ 1 "T" 0 3600
        none none false (.error ())).1 = .error err) ∧
    ((updateEvent ⟨[⟨1, 1, some "g1", "T", none, none, 0, 3600, false, "generated",
          "confirmed"⟩],
        [⟨1, 1, some "g1", "T", none, none, 0, 3600, false, "generated", "confirmed"⟩]⟩
        1 (some "U") none none none none none (.error ())).2.1 =
      ⟨[⟨1, 1, some "g1", "T", none, none, 0, 3600, false, "generated", "confirmed"⟩],
       [⟨1, 1, some "g1", "T", none, none, 0, 3600, false, "generated", "confirmed"⟩]⟩ ∧
      ∃ err, (updateEvent ⟨[⟨1, 1, some "g1", "T", none, none, 0, 3600, false, "generated",
          "confirmed"⟩],
        [⟨1, 1, some "g1", "T", none, none, 0, 3600, false, "generated", "confirmed"⟩]⟩
        1 (some "U") none none none none none (.error ())).1 = .error err) ∧
    ((deleteEvent ⟨[⟨1, 1, some "g1", "T", none, none, 0, 3600, false, "generated",
          "confirmed"⟩],
        [⟨1, 1, some "g1", "T", none, none, 0, 3600, false, "generated", "confirmed"⟩]⟩
        1 (.error ())).2.1 =
      ⟨[⟨1, 1, some "g1", "T", none, none, 0, 3600, false, "generated", "confirmed"⟩],
       [⟨1, 1, some "g1", "T", none, none, 0, 3600, false, "generated", "confirmed"⟩]⟩ ∧
      ∃ err, (deleteEvent ⟨[⟨1, 1, some "g1", "T", none, none, 0, 3600, false, "generated",
          "confirmed"⟩],
        [⟨1, 1, some "g1", "T", none, none, 0, 3600, false, "generated", "confirmed"⟩]⟩
        1 (.error ())).1 = .error err) ∧
    ((deleteEvent ⟨[⟨2, 1, none, "Local", none, none, 0, 3600, false, "manual",
          "confirmed"⟩],
        [⟨2, 1, none, "Local", none, none, 0, 3600, false, "manual", "confirmed"⟩]⟩
        2 (.error ())).2.2 = 0 ∧
      (deleteEvent ⟨[⟨2, 1, none, "Local", none, none, 0, 3600, false, "manual",
          "confirmed"⟩],
        [⟨2, 1, none, "Local", none, none, 0, 3600, false, "manual", "confirmed"⟩]⟩
        2 (.error ())).1 = .ok () ∧
      (deleteEvent ⟨[⟨2, 1, none, "Local", none, none, 0, 3600, false, "manual",
          "confirmed"⟩],
        [⟨2, 1, none, "Local", none, none, 0, 3600, false, "manual", "confirmed"⟩]⟩
        2 (.error ())).2.1 = ⟨[], []⟩) :=
  ⟨single_write_atomic.1 [⟨1, 1, "cal1", "Work", true, "UTC"⟩] ⟨[], []⟩ 1 "T" 0 3600
      none none false rfl,
   single_write_atomic.2.1
      ⟨[⟨1, 1, some "g1", "T", none, none, 0, 3600, false, "generated", "confirmed"⟩],
       [⟨1, 1, some "g1", "T", none, none, 0, 3600, false, "generated", "confirmed"⟩]⟩
      1 (some "U") none none none none none rfl,
   single_write_atomic.2.2.1
      ⟨[⟨1, 1, some "g1", "T", none, none, 0, 3600, false, "generated", "confirmed"⟩],
       [⟨1, 1, some "g1", "T", none, none, 0, 3600, false, "generated", "confirmed"⟩]⟩
      1 rfl rfl,
   single_write_atomic.2.2.2
      ⟨[⟨2, 1, none, "Local", none, none, 0, 3600, false, "manual", "confirmed"⟩],
       [⟨2, 1, none, "Local", none, none, 0, 3600, false, "manual", "confirmed"⟩]⟩
      2 ⟨2, 1, none, "Local", none, none, 0, 3600, false, "manual", "confirmed"⟩
      (.error ()) rfl (by decide) rfl rfl⟩

/-- The commit of the bulk-sync path (`calendar_sync.py` lines 105, 290)
under the same table constraint: the pending rows replace the stored ones
only when every row satisfies the check constraint. -/
def syncCommitDb (committed current : List ExternalEvent) : List ExternalEvent :=
  if eventsInvariantOk current then current else committed

/-- A successful commit leaves the stored table satisfying the check
constraint. -/
theorem commitDb_ok_invariant (s s' : Session) (h : commitDb s = .ok s') :
    eventsInvariantOk s'.committed = true := by
  unfold commitDb at h
  by_cases hi : eventsInvariantOk s.current = true
  · rw [if_pos hi] at h
    cases h
    exact hi
  · rw [if_neg hi] at h
    cases h

/-- `create_event` never stores a table violating the check constraint. -/
theorem createEvent_preserves_invariant (sources : List CalendarSource) (s : Session)
    (csId : Nat) (title : String) (st en : Int) (d l : Option String) (ad : Bool)
    (provider : Except Unit String)
    (hInv : eventsInvariantOk s.committed = true) :
    eventsInvariantOk
      ((createEvent sources s csId title st en d l ad provider).2.1).committed = true := by
  unfold createEvent
  by_cases hv : en ≤ st
  · rw [if_pos hv]
    exact hInv
  · rw [if_neg hv]
    rcases hfs : sources.filter (fun c => c.id == csId) with _ | ⟨cs, _ | ⟨y, r⟩⟩ <;>
      simp only [hfs]
    · exact hInv
    · cases provider with
      | error e => exact hInv
      | ok gid =>
        dsimp only
        split
        · rename_i s2 hc
          exact commitDb_ok_invariant _ _ hc
        · exact hInv
    · exact hInv

/-- `update_event` never stores a table violating the check constraint. -/
theorem updateEvent_preserves_invariant (s : Session) (eid : Nat)
    (title : Option String) (sa ea : Option Int) (d l : Option String)
    (ad : Option Bool) (provider : Except Unit Unit)
    (hInv : eventsInvariantOk s.committed = true) :
    eventsInvariantOk
      ((updateEvent s eid title sa ea d l ad provider).2.1).committed = true := by
  unfold updateEvent
  rcases hfe : s.current.filter (fun e => e.id == eid) with _ | ⟨ev, _ | ⟨y, r⟩⟩ <;>
    simp only [hfe]
  · exact hInv
  · by_cases hext : ev.external_event_id.getD "" = ""
    · rw [if_pos hext]
      exact hInv
    · rw [if_neg hext]
      by_cases hvb : (match sa, ea with
                      | some sa', some ea' => decide (ea' ≤ sa')
                      | _, _ => false) = true
      · rw [if_pos hvb]
        exact hInv
      · rw [if_neg hvb]
        cases provider with
        | error e => exact hInv
        | ok u =>
          dsimp only
          split
          · rename_i s2 hc
            exact commitDb_ok_invariant _ _ hc
          · exact hInv
  · exact hInv

/-- `delete_event` never stores a table violating the check constraint. -/
theorem deleteEvent_preserves_invariant (s : Session) (eid : Nat)
    (provider : Except Unit Unit)
    (hInv : eventsInvariantOk s.committed = true) :
    eventsInvariantOk ((deleteEvent s eid provider).2.1).committed = true := by
  unfold deleteEvent
  rcases hfe : s.current.filter (fun e => e.id == eid) with _ | ⟨ev, _ | ⟨y, r⟩⟩ <;>
    simp only [hfe]
  · exact hInv
  · by_cases hext : ev.external_event_id.getD "" = ""
    · rw [if_pos hext]
      split
      · rename_i s2 hc
        exact commitDb_ok_invariant _ _ hc
      · exact hInv
    · rw [if_neg hext]
      cases provider with
      | error e => exact hInv
      | ok u =>
        dsimp only
        split
        · rename_i s2 hc
          exact commitDb_ok_invariant _ _ hc
        · exact hInv
  · exact hInv

/-- C9 counterexample: `update_event` given only `start_at` (no `end_at`)
does **not** raise the validation `ValueError`: on a non-all-day row with
stored bounds `[0, 3600)`, updating `start_at := 7200` proceeds to the
provider call (one call is made, so the remote event is mutated) and the
non-all-day row with `end ≤ start` is rejected only at commit by the
database check constraint — an `IntegrityError`, not a `ValidationError`,
refuting "updateEvent validates it, raising ValidationError with no state
change". -/
theorem update_single_bound_skips_validation :
    (updateEvent ⟨[⟨1, 1, some "g1", "T", none, none, 0, 3600, false, "imported",
        "confirmed"⟩],
      [⟨1, 1, some "g1", "T", none, none, 0, 3600, false, "imported", "confirmed"⟩]⟩
      1 none (some 7200) none none none none (.ok ())).1 = .error .integrityError ∧
    (updateEvent ⟨[⟨1, 1, some "g1", "T", none, none, 0, 3600, false, "imported",
        "confirmed"⟩],
      [⟨1, 1, some "g1", "T", none, none, 0, 3600, false, "imported", "confirmed"⟩]⟩
      1 none (some 7200) none none none none (.ok ())).2.2 = 1 :=
  ⟨rfl, rfl⟩

/-- C9 (amended): `createEvent` validates end-after-start whenever called
(all-day events included); `updateEvent` validates it only when **both**
bounds are supplied (raising the validation `ValueError` with no state
change and no provider call); when only one bound is supplied — and in bulk
reconciliation — no application-level validation runs, and the database
check constraint `(all_day OR end_at > start_at)` is what keeps every
**stored** table free of non-all-day rows with `end ≤ start`: every
operation, and the bulk-sync commit, preserves the constraint on the
committed table. -/
theorem event_invariant_guard :
    (∀ (sources : List CalendarSource) (s : Session) (csId : Nat) (title : String)
       (st en : Int) (d l : Option String) (ad : Bool) (provider : Except Unit String),
       en ≤ st →
       createEvent sources s csId title st en d l ad provider =
         (.error (.valueError "Event end time must be after start time"), s, 0)) ∧
    (∀ (s : Session) (eid : Nat) (title : Option String) (sa ea : Int)
       (d l : Option String) (ad : Option Bool) (provider : Except Unit Unit)
       (ev : ExternalEvent),
       s.current.filter (fun e => e.id == eid) = [ev] →
       ¬ ev.external_event_id.getD "" = "" → ea ≤ sa →
       updateEvent s eid title (some sa) (some ea) d l ad provider =
         (.error (.valueError "Event end time must be after start time"), s, 0)) ∧
    (∀ (sources : List CalendarSource) (s : Session) (csId : Nat) (title : String)
       (st en : Int) (d l : Option String) (ad : Bool) (provider : Except Unit String),
       eventsInvariantOk s.committed = true →
       eventsInvariantOk
         ((createEvent sources s csId title st en d l ad provider).2.1).committed = true) ∧
    (∀ (s : Session) (eid : Nat) (title : Option String) (sa ea : Option Int)
       (d l : Option String) (ad : Option Bool) (provider : Except Unit Unit),
       eventsInvariantOk s.committed = true →
       eventsInvariantOk
         ((updateEvent s eid title sa ea d l ad provider).2.1).committed = true) ∧
    (∀ (s : Session) (eid : Nat) (provider : Except Unit Unit),
       eventsInvariantOk s.committed = true →
       eventsInvariantOk ((deleteEvent s eid provider).2.1).committed = true) ∧
    (∀ (committed current : List ExternalEvent),
       eventsInvariantOk committed = true →
       eventsInvariantOk (syncCommitDb committed current) = true) := by
  refine ⟨?_, ?_, createEvent_preserves_invariant, updateEvent_preserves_invariant,
          deleteEvent_preserves_invariant, ?_⟩
  · intro sources s csId title st en d l ad provider hle
    unfold createEvent
    rw [if_pos hle]
  · intro s eid title sa ea d l ad provider ev hfe hext hle
    unfold updateEvent
    rw [hfe]
    simp only
    rw [if_neg hext, if_pos (show (match some sa, some ea with
      | some sa', some ea' => decide (ea' ≤ sa')
      | _, _ => false) = true from decide_eq_true hle)]
  · intro committed current h
    unfold syncCommitDb
    by_cases hc : eventsInvariantOk current = true
    · rw [if_pos hc]
      exact hc
    · rw [if_neg hc]
      exact h

/-- C9 witness: the amended guard at concrete inputs — an all-day create
with `end = start` is rejected by validation; an update carrying both
bounds with `end ≤ start` is rejected with no provider call; and the three
operations plus the sync commit keep a constraint-satisfying table
constraint-satisfying. -/
theorem event_invariant_guard_witness :
    (createEvent [⟨1, 1, "cal1", "Work", true, "UTC"⟩] ⟨[], []⟩ 1 "T" 3600 3600
        none none true (.ok "gid") =
      (.error (.valueError "Event end time must be after start time"), ⟨[], []⟩, 0)) ∧
    (updateEvent ⟨[⟨1, 1, some "g1", "T", none, none, 0, 3600, false, "generated",
          "confirmed"⟩],
        [⟨1, 1, some "g1", "T", none, none, 0, 3600, false, "generated", "confirmed"⟩]⟩
        1 none (some 7200) (some 3600) none none none (.ok ()) =
      (.error (.valueError "Event end time must be after start time"),
       ⟨[⟨1, 1, some "g1", "T", none, none, 0, 3600, false, "generated", "confirmed"⟩],
        [⟨1, 1, some "g1", "T", none, none, 0, 3600, false, "generated", "confirmed"⟩]⟩, 0)) ∧
    (eventsInvariantOk
      ((createEvent [⟨1, 1, "cal1", "Work", true, "UTC"⟩] ⟨[], []⟩ 1 "T" 0 3600
        none none false (.ok "gid")).2.1).committed = true) ∧
    (eventsInvariantOk
      ((updateEvent ⟨[], []⟩ 1 none (some 7200) none none none none (.ok ())).2.1).committed =
      true) ∧
    (eventsInvariantOk ((deleteEvent ⟨[], []⟩ 1 (.ok ())).2.1).committed = true) ∧
    (eventsInvariantOk (syncCommitDb []
      [⟨9, 9, some "bad", "Bad", none, none, 7200, 3600, false, "imported",
        "confirmed"⟩]) = true) :=
  ⟨event_invariant_guard.1 [⟨1, 1, "cal1", "Work", true, "UTC"⟩] ⟨[], []⟩ 1 "T" 3600 3600
      none none true (.ok "gid") (by decide),
   event_invariant_guard.2.1
      ⟨[⟨1, 1, some "g1", "T", none, none, 0, 3600, false, "generated", "confirmed"⟩],
       [⟨1, 1, some "g1", "T", none, none, 0, 3600, false, "generated", "confirmed"⟩]⟩
      1 none 7200 3600 none none none (.ok ())
      ⟨1, 1, some "g1", "T", none, none, 0, 3600, false, "generated", "confirmed"⟩
      rfl (by decide) (by decide),
   event_invariant_guard.2.2.1 [⟨1, 1, "cal1", "Work", true, "UTC"⟩] ⟨[], []⟩ 1 "T" 0 3600
      none none false (.ok "gid") rfl,
   event_invariant_guard.2.2.2.1 ⟨[], []⟩ 1 none (some 7200) none none none none
      (.ok ()) rfl,
   event_invariant_guard.2.2.2.2.1 ⟨[], []⟩ 1 (.ok ()) rfl,
   event_invariant_guard.2.2.2.2.2 []
      [⟨9, 9, some "bad", "Bad", none, none, 7200, 3600, false, "imported", "confirmed"⟩]
      rfl⟩
